import Mathlib

/-
  Shallow embedding of the go-socks4 package (src/socks4.go): a SOCKS4 /
  SOCKS4a client handshake layered on an abstract transport dialer.

  Pure helpers (`parseAddr`, `prepareRequest`, address splitting, integer
  parsing) are translated to Lean functions; the effectful `Dial` method is
  modelled as a function of an explicit `World` describing the outcomes of
  the transport dialer, the single write and the single read, and it emits
  a trace of the I/O events it performs.
-/

namespace Socks4

/-- Protocol constants from the source. -/
def socksVersion : Nat := 0x04

def socksConnect : Nat := 0x01

def accessGranted : Nat := 0x5a

def accessRejected : Nat := 0x5b

def accessIdentRequired : Nat := 0x5c

def accessIdentFailed : Nat := 0x5d

def minRequestLen : Nat := 8

/-- Default value of the package-global `Ident` variable. -/
def defaultIdent : String := "nobody@0.0.0.0"

/-- Causes wrapped by the `ErrIO` typed error. -/
inductive IOCause where
  | shortWrite
  | unexpectedEOF
  | writeFailure
  | readFailure
  deriving DecidableEq, Repr

/-- The error taxonomy of the package (§7 of the spec, `Err*` constants in
the source). Errors that embed data in their message carry it here. -/
inductive SocksErr where
  | wrongNetwork
  | dialFailed
  | wrongAddr (addr : String)
  | connRejected
  | identRequired
  | ioError (cause : IOCause)
  | hostUnknown (host : String)
  | invalidResponse (b : Nat)
  deriving DecidableEq, Repr

/-- Errors produced by `net.SplitHostPort`. -/
inductive AddrErr where
  | missingPort
  | tooManyColons
  | missingRBracket
  | unexpectedLBracket
  | unexpectedRBracket
  deriving DecidableEq, Repr

/-- Index of the first occurrence of `c` in `cs` (Go `byteIndex`). -/
def firstIndex (cs : List Char) (c : Char) : Option Nat :=
  match cs with
  | [] => none
  | a :: rest =>
    if a = c then some 0
    else (firstIndex rest c).map (· + 1)

/-- Index of the last occurrence of `c` in `cs` (Go `last`). -/
def lastIndex (cs : List Char) (c : Char) : Option Nat :=
  match cs with
  | [] => none
  | a :: rest =>
    match lastIndex rest c with
    | some j => some (j + 1)
    | none => if a = c then some 0 else none

/-- Model of Go `net.SplitHostPort`: split `host:port`, recognising the
`[host]:port` bracketed form, and reject stray colons and brackets. -/
def splitHostPort (hostport : String) : Except AddrErr (String × String) :=
  let s := hostport.data
  match lastIndex s ':' with
  | none => .error .missingPort
  | some i =>
    if s.head? = some '[' then
      match firstIndex s ']' with
      | none => .error .missingRBracket
      | some e =>
        if e + 1 = s.length then .error .missingPort
        else if e + 1 = i then
          if (firstIndex (s.drop 1) '[').isSome then .error .unexpectedLBracket
          else if (firstIndex (s.drop (e + 1)) ']').isSome then .error .unexpectedRBracket
          else .ok (⟨(s.drop 1).take (e - 1)⟩, ⟨s.drop (i + 1)⟩)
        else if (s.drop (e + 1)).head? = some ':' then .error .tooManyColons
        else .error .missingPort
    else
      let host := s.take i
      if (firstIndex host ':').isSome then .error .tooManyColons
      else if (firstIndex s '[').isSome then .error .unexpectedLBracket
      else if (firstIndex s ']').isSome then .error .unexpectedRBracket
      else .ok (⟨host⟩, ⟨s.drop (i + 1)⟩)

/-- Decimal digit test. -/
def isDigit (c : Char) : Bool := '0' ≤ c && c ≤ '9'

/-- Value of a digit string. -/
def digitsVal (cs : List Char) : Nat :=
  cs.foldl (fun a c => a * 10 + (c.toNat - 48)) 0

/-- Model of Go `strconv.Atoi` on a 64-bit platform: optional sign, one or
more decimal digits, result within the `int64` range; `none` on syntax or
range error. -/
def atoi (s : String) : Option Int :=
  match s.data with
  | [] => none
  | c :: rest =>
    let neg := c = '-'
    let ds := if c = '-' ∨ c = '+' then rest else c :: rest
    if ds = [] then none
    else if ds.all isDigit then
      let v := digitsVal ds
      if neg then
        if v ≤ 2 ^ 63 then some (-(v : Int)) else none
      else
        if v ≤ 2 ^ 63 - 1 then some (v : Int) else none
    else none

/-- Result of `parseAddr` in the source: named returns `(host, iport, err)`.
On error the source returns `("", 0, ErrWrongAddr.WithArgs(addr).Wrap(..))`. -/
structure ParsedAddr where
  host : String
  port : Int
  err : Option SocksErr
  deriving DecidableEq, Repr

/-- `(s socks4) parseAddr`: split the address and parse the port with
`Atoi`; both failure modes yield `ErrWrongAddr` carrying `addr`. -/
def parseAddr (addr : String) : ParsedAddr :=
  match splitHostPort addr with
  | .error _ => ⟨"", 0, some (.wrongAddr addr)⟩
  | .ok (host, portStr) =>
    match atoi portStr with
    | none => ⟨"", 0, some (.wrongAddr addr)⟩
    | some p => ⟨host, p, none⟩

/-- UTF-8 bytes of a string, as written by `bytes.Buffer.WriteString`. -/
def strBytes (s : String) : List Nat :=
  s.data.flatMap (fun c => (String.utf8EncodeChar c).map (fun b => b.toNat))

/-- Go conversion `uint16(i)` of a (possibly negative) `int`: truncation to
the low 16 bits, i.e. the representative of `i` modulo 2^16. -/
def toUint16 (i : Int) : Nat := (i % 65536).toNat

/-- Big-endian serialization of a `uint16` (`binary.Write` with
`binary.BigEndian`). -/
def u16be (n : Nat) : List Nat := [n / 256 % 256, n % 256]

/-- The external resolver (`net.ResolveIPAddr("ip4", host)` followed by
`.To4()`): an oracle from host names to the destination-address bytes. -/
def Resolver : Type := String → Except Unit (List Nat)

/-- `(s socks4) lookupAddr`: resolution failure becomes `ErrHostUnknown`
carrying the host name. -/
def lookupAddr (resolver : Resolver) (host : String) :
    Except SocksErr (List Nat) :=
  match resolver host with
  | .error _ => .error (.hostUnknown host)
  | .ok ip => .ok ip

/-- `(s socks4) isSocks4a`. -/
def isSocks4a (scheme : String) : Bool := scheme = "socks4a"

/-- `(s socks4) prepareRequest`. Mirrors the source faithfully, including
its control flow around the `parseAddr` error: the error value returned by
`parseAddr` is bound but never tested; in the socks4 (non-a) branch it is
overwritten by the `lookupAddr` result, and the final statement returns a
`nil` error unconditionally. -/
def prepareRequest (scheme : String) (resolver : Resolver)
    (ident : String) (addr : String) : Except SocksErr (List Nat) :=
  let p := parseAddr addr
  let hdr : List Nat := [socksVersion, socksConnect] ++ u16be (toUint16 p.port)
  let ipRes : Except SocksErr (List Nat) :=
    if isSocks4a scheme then .ok [0, 0, 0, 1]
    else lookupAddr resolver p.host
  match ipRes with
  | .error e => .error e
  | .ok ip =>
    .ok (hdr ++ ip ++ strBytes ident ++ [0] ++
      (if isSocks4a scheme then strBytes p.host ++ [0] else []))

/-- Outcome of the single `c.Read(resp[:])` call: `ok` is a `nil` error,
`eof` is `io.EOF`, `failure` any other error. -/
inductive ReadErr where
  | ok
  | eof
  | failure
  deriving DecidableEq, Repr

/-- The environment of one `Dial` invocation: outcome of the upstream
`dialer.Dial`, of the single `Write` (count and error) and of the single
`Read` (count, buffer contents after the read, error). -/
structure World where
  dialOk : Bool
  writeN : Nat
  writeErr : Bool
  readN : Nat
  readBuf : List Nat
  readErr : ReadErr
  deriving DecidableEq, Repr

/-- Observable I/O events performed by `Dial`, in order. -/
inductive Event where
  | dialCall (network : String) (address : String)
  | writeCall (data : List Nat)
  | readCall
  | closeCall
  deriving DecidableEq, Repr

/-- Result of `Dial`: whether a (non-nil) stream value is returned, the
returned error, and the trace of I/O events performed. -/
structure DialResult where
  conn : Bool
  err : Option SocksErr
  trace : List Event
  deriving DecidableEq, Repr

/-- `(s socks4) Dial(network, addr)`. The deferred close runs exactly when
the named return `err` is non-nil at return time, which in the source is
every return after the transport dial except the access-granted one. -/
def dial (scheme proxyHost : String) (resolver : Resolver) (ident : String)
    (w : World) (network addr : String) : DialResult :=
  if network ≠ "tcp" ∧ network ≠ "tcp4" then
    ⟨false, some .wrongNetwork, []⟩
  else
    let t0 : List Event := [.dialCall network proxyHost]
    if w.dialOk = false then ⟨false, some .dialFailed, t0⟩
    else
      match prepareRequest scheme resolver ident addr with
      | .error e => ⟨true, some e, t0 ++ [.closeCall]⟩
      | .ok req =>
        let t1 := t0 ++ [.writeCall req]
        if w.writeErr then ⟨true, some (.ioError .writeFailure), t1 ++ [.closeCall]⟩
        else if w.writeN < minRequestLen then
          ⟨true, some (.ioError .shortWrite), t1 ++ [.closeCall]⟩
        else
          let t2 := t1 ++ [.readCall]
          if w.readErr = .failure then
            ⟨true, some (.ioError .readFailure), t2 ++ [.closeCall]⟩
          else if w.readN ≠ 8 then
            ⟨true, some (.ioError .unexpectedEOF), t2 ++ [.closeCall]⟩
          else
            let b := w.readBuf.getD 1 0
            if b = accessGranted then ⟨true, none, t2⟩
            else if b = accessIdentRequired ∨ b = accessIdentFailed then
              ⟨true, some .identRequired, t2 ++ [.closeCall]⟩
            else if b = accessRejected then
              ⟨true, some .connRejected, t2 ++ [.closeCall]⟩
            else ⟨true, some (.invalidResponse b), t2 ++ [.closeCall]⟩

/-- A resolver that fails on every host. -/
def failResolver : Resolver := fun _ => .error ()

/-- A resolver that maps every host to the fixed address 93.184.216.34. -/
def fixedResolver : Resolver := fun _ => .ok [93, 184, 216, 34]

/-- A cooperative world: transport dial succeeds, the write accepts 64
bytes, the read delivers a full 8-byte access-granted reply then EOF. -/
def grantedWorld : World :=
  { dialOk := true, writeN := 64, writeErr := false,
    readN := 8, readBuf := [0, 0x5a, 0, 0, 0, 0, 0, 0], readErr := .eof }

/-- Like `grantedWorld` but the reply status byte is access-rejected. -/
def rejectedWorld : World :=
  { dialOk := true, writeN := 64, writeErr := false,
    readN := 8, readBuf := [0, 0x5b, 0, 0, 0, 0, 0, 0], readErr := .ok }

/-- A world whose read hits end-of-stream immediately: zero bytes. -/
def eofWorld : World :=
  { dialOk := true, writeN := 64, writeErr := false,
    readN := 0, readBuf := [0, 0, 0, 0, 0, 0, 0, 0], readErr := .eof }

/-- A world whose write reports exactly 8 bytes written, fewer than any
full request, and whose read then grants access. -/
def shortWriteWorld : World :=
  { dialOk := true, writeN := 8, writeErr := false,
    readN := 8, readBuf := [0, 0x5a, 0, 0, 0, 0, 0, 0], readErr := .ok }

/-- Normal form of `dial` when the handshake reaches the reply switch. -/
theorem dial_run (scheme proxyHost : String) (resolver : Resolver)
    (ident : String) (w : World) (network addr : String) (req : List Nat)
    (hnet : network = "tcp" ∨ network = "tcp4")
    (hdial : w.dialOk = true)
    (hreq : prepareRequest scheme resolver ident addr = .ok req)
    (hwerr : w.writeErr = false)
    (hwn : minRequestLen ≤ w.writeN)
    (hrerr : w.readErr ≠ .failure)
    (hrn : w.readN = 8) :
    dial scheme proxyHost resolver ident w network addr =
      (let t2 : List Event :=
        [.dialCall network proxyHost, .writeCall req, .readCall]
      let b := w.readBuf.getD 1 0
      if b = accessGranted then ⟨true, none, t2⟩
      else if b = accessIdentRequired ∨ b = accessIdentFailed then
        ⟨true, some .identRequired, t2 ++ [.closeCall]⟩
      else if b = accessRejected then ⟨true, some .connRejected, t2 ++ [.closeCall]⟩
      else ⟨true, some (.invalidResponse b), t2 ++ [.closeCall]⟩) := by
  have hn : ¬ (network ≠ "tcp" ∧ network ≠ "tcp4") := by
    rcases hnet with h | h <;> simp [h]
  simp only [dial, if_neg hn, hdial, hreq, hwerr, hrn]
  simp [Nat.not_lt.mpr hwn, hrerr]

/-- Branch lemma: `prepareRequest` reports an error. -/
theorem dial_prepare_error (scheme proxyHost : String) (resolver : Resolver)
    (ident : String) (w : World) (network addr : String) (e : SocksErr)
    (hnet : network = "tcp" ∨ network = "tcp4")
    (hdial : w.dialOk = true)
    (hreq : prepareRequest scheme resolver ident addr = .error e) :
    dial scheme proxyHost resolver ident w network addr =
      ⟨true, some e, [.dialCall network proxyHost, .closeCall]⟩ := by
  have hn : ¬ (network ≠ "tcp" ∧ network ≠ "tcp4") := by
    rcases hnet with h | h <;> simp [h]
  simp only [dial, if_neg hn, hdial, hreq]
  simp

/-- Branch lemma: the write reports an error. -/
theorem dial_write_failure (scheme proxyHost : String) (resolver : Resolver)
    (ident : String) (w : World) (network addr : String) (req : List Nat)
    (hnet : network = "tcp" ∨ network = "tcp4")
    (hdial : w.dialOk = true)
    (hreq : prepareRequest scheme resolver ident addr = .ok req)
    (hw : w.writeErr = true) :
    dial scheme proxyHost resolver ident w network addr =
      ⟨true, some (.ioError .writeFailure),
        [.dialCall network proxyHost, .writeCall req, .closeCall]⟩ := by
  have hn : ¬ (network ≠ "tcp" ∧ network ≠ "tcp4") := by
    rcases hnet with h | h <;> simp [h]
  simp only [dial, if_neg hn, hdial, hreq, hw]
  simp

/-- Branch lemma: the write reports fewer than `minRequestLen` bytes. -/
theorem dial_write_short (scheme proxyHost : String) (resolver : Resolver)
    (ident : String) (w : World) (network addr : String) (req : List Nat)
    (hnet : network = "tcp" ∨ network = "tcp4")
    (hdial : w.dialOk = true)
    (hreq : prepareRequest scheme resolver ident addr = .ok req)
    (hwerr : w.writeErr = false)
    (hwn : w.writeN < minRequestLen) :
    dial scheme proxyHost resolver ident w network addr =
      ⟨true, some (.ioError .shortWrite),
        [.dialCall network proxyHost, .writeCall req, .closeCall]⟩ := by
  have hn : ¬ (network ≠ "tcp" ∧ network ≠ "tcp4") := by
    rcases hnet with h | h <;> simp [h]
  simp only [dial, if_neg hn, hdial, hreq, hwerr]
  simp [hwn]

/-- Branch lemma: the read reports an error other than end-of-stream. -/
theorem dial_read_failure (scheme proxyHost : String) (resolver : Resolver)
    (ident : String) (w : World) (network addr : String) (req : List Nat)
    (hnet : network = "tcp" ∨ network = "tcp4")
    (hdial : w.dialOk = true)
    (hreq : prepareRequest scheme resolver ident addr = .ok req)
    (hwerr : w.writeErr = false)
    (hwn : minRequestLen ≤ w.writeN)
    (hre : w.readErr = .failure) :
    dial scheme proxyHost resolver ident w network addr =
      ⟨true, some (.ioError .readFailure),
        [.dialCall network proxyHost, .writeCall req, .readCall, .closeCall]⟩ := by
  have hn : ¬ (network ≠ "tcp" ∧ network ≠ "tcp4") := by
    rcases hnet with h | h <;> simp [h]
  simp only [dial, if_neg hn, hdial, hreq, hwerr, hre]
  simp [Nat.not_lt.mpr hwn]

/-- Branch lemma: the read delivered a byte count other than 8. -/
theorem dial_read_short (scheme proxyHost : String) (resolver : Resolver)
    (ident : String) (w : World) (network addr : String) (req : List Nat)
    (hnet : network = "tcp" ∨ network = "tcp4")
    (hdial : w.dialOk = true)
    (hreq : prepareRequest scheme resolver ident addr = .ok req)
    (hwerr : w.writeErr = false)
    (hwn : minRequestLen ≤ w.writeN)
    (hre : w.readErr ≠ .failure)
    (hrn : w.readN ≠ 8) :
    dial scheme proxyHost resolver ident w network addr =
      ⟨true, some (.ioError .unexpectedEOF),
        [.dialCall network proxyHost, .writeCall req, .readCall, .closeCall]⟩ := by
  have hn : ¬ (network ≠ "tcp" ∧ network ≠ "tcp4") := by
    rcases hnet with h | h <;> simp [h]
  simp only [dial, if_neg hn, hdial, hreq, hwerr]
  simp [Nat.not_lt.mpr hwn, hre, hrn]

/-- Claim C1 (code bug). `parseAddr` does produce `ErrWrongAddr` for a
target lacking a port, but `prepareRequest` binds the error without ever
testing it: in socks4a mode `Dial` proceeds and can succeed, and in socks4
mode the error is overwritten by `lookupAddr` on the empty host, surfacing
as `ErrHostUnknown` with an empty host name instead of `ErrWrongAddr`. -/
theorem dial_drops_wrong_addr_error :
    (parseAddr "localhost").err = some (.wrongAddr "localhost")
    ∧ (dial "socks4a" "proxy.example.com:1080" failResolver defaultIdent grantedWorld
        "tcp" "localhost").err = none
    ∧ (dial "socks4" "proxy.example.com:1080" failResolver defaultIdent grantedWorld
        "tcp" "localhost").err = some (.hostUnknown "") := by
  refine ⟨by decide, by decide, by decide⟩

/-- Claim C2, counterexample. Port 70000 is outside the 16-bit range, yet
`Dial` does not fail with `ErrWrongAddr`: the handshake completes with no
error at all. -/
theorem dial_accepts_out_of_range_port :
    (dial "socks4a" "proxy.example.com:1080" failResolver defaultIdent grantedWorld
      "tcp" "example.com:70000").err = none := by decide

/-- Claim C2, amended. Any port accepted by `strconv.Atoi` — including 0,
negative values and values above 65535 — passes `parseAddr` with no error;
the serialized request carries the port truncated modulo 2^16. -/
theorem parseAddr_no_port_range_check (addr host portStr : String) (p : Int)
    (hsplit : splitHostPort addr = .ok (host, portStr))
    (hatoi : atoi portStr = some p) :
    parseAddr addr = ⟨host, p, none⟩
    ∧ ∀ resolver ident, prepareRequest "socks4a" resolver ident addr =
        .ok ([socksVersion, socksConnect] ++ u16be (toUint16 p) ++ [0, 0, 0, 1] ++
          strBytes ident ++ [0] ++ strBytes host ++ [0]) := by
  have hp : parseAddr addr = ⟨host, p, none⟩ := by
    simp [parseAddr, hsplit, hatoi]
  exact ⟨hp, fun resolver ident => by simp [prepareRequest, hp, isSocks4a]⟩

/-- Witness for `parseAddr_no_port_range_check` at `example.com:70000`:
70000 is accepted and serialized as 70000 mod 2^16 = 4464 = [17, 112]. -/
theorem parseAddr_no_port_range_check_witness :
    parseAddr "example.com:70000" = ⟨"example.com", 70000, none⟩
    ∧ prepareRequest "socks4a" failResolver defaultIdent "example.com:70000" =
        .ok ([socksVersion, socksConnect] ++ u16be (toUint16 70000) ++ [0, 0, 0, 1] ++
          strBytes defaultIdent ++ [0] ++ strBytes "example.com" ++ [0]) := by
  have h := parseAddr_no_port_range_check "example.com:70000" "example.com" "70000"
    70000 rfl (by decide)
  exact ⟨h.1, h.2 failResolver defaultIdent⟩

/-- Claim C3 (code bug). A detected error is silently swallowed: on the
address `host:badport` the port fails `Atoi` and `parseAddr` reports
`ErrWrongAddr`, yet `Dial` in socks4a mode returns no error at all. -/
theorem dial_swallows_detected_parse_error :
    ((parseAddr "host:badport").err.isSome = true)
    ∧ (dial "socks4a" "proxy.example.com:1080" failResolver defaultIdent grantedWorld
        "tcp" "host:badport").err = none := by
  refine ⟨by decide, by decide⟩

/-- Claim C4. Once a full 8-byte reply is read, the result of `Dial` is
determined solely by the status byte (index 1 of the reply buffer): 0x5a
returns the stream with no error, 0x5b is `ErrConnRejected`, 0x5c and 0x5d
are `ErrIdentRequired`, and any other value is `ErrInvalidResponse`
carrying the raw byte; replacing the reply buffer by any buffer with the
same byte 1 leaves the entire result unchanged, so bytes 0 and 2–7 are
ignored. -/
theorem dial_reply_status_mapping (scheme proxyHost : String) (resolver : Resolver)
    (ident : String) (w : World) (network addr : String) (req : List Nat)
    (hnet : network = "tcp" ∨ network = "tcp4")
    (hdial : w.dialOk = true)
    (hreq : prepareRequest scheme resolver ident addr = .ok req)
    (hwerr : w.writeErr = false)
    (hwn : minRequestLen ≤ w.writeN)
    (hrerr : w.readErr ≠ .failure)
    (hrn : w.readN = 8) :
    ((dial scheme proxyHost resolver ident w network addr).err =
      (let b := w.readBuf.getD 1 0
       if b = accessGranted then none
       else if b = accessIdentRequired ∨ b = accessIdentFailed then some .identRequired
       else if b = accessRejected then some .connRejected
       else some (.invalidResponse b)))
    ∧ (dial scheme proxyHost resolver ident w network addr).conn = true
    ∧ ∀ buf2 : List Nat, buf2.getD 1 0 = w.readBuf.getD 1 0 →
        dial scheme proxyHost resolver ident { w with readBuf := buf2 } network addr
          = dial scheme proxyHost resolver ident w network addr := by
  have h1 := dial_run scheme proxyHost resolver ident w network addr req
    hnet hdial hreq hwerr hwn hrerr hrn
  refine ⟨?_, ?_, ?_⟩
  · rw [h1]
    dsimp only
    split_ifs <;> rfl
  · rw [h1]
    dsimp only
    split_ifs <;> rfl
  · intro buf2 hbuf
    have h2 := dial_run scheme proxyHost resolver ident { w with readBuf := buf2 }
      network addr req hnet hdial hreq hwerr hwn hrerr hrn
    rw [h1, h2]
    dsimp only
    rw [hbuf]

/-- Witness for `dial_reply_status_mapping`: a granted reply returns the
open stream and no error. -/
theorem dial_reply_status_mapping_witness :
    (dial "socks4a" "proxy.example.com:1080" failResolver defaultIdent grantedWorld
      "tcp" "example.com:80").err = none
    ∧ (dial "socks4a" "proxy.example.com:1080" failResolver defaultIdent grantedWorld
      "tcp" "example.com:80").conn = true := by
  have h := dial_reply_status_mapping "socks4a" "proxy.example.com:1080" failResolver
    defaultIdent grantedWorld "tcp" "example.com:80"
    ([socksVersion, socksConnect] ++ u16be (toUint16 80) ++ [0, 0, 0, 1] ++
      strBytes defaultIdent ++ [0] ++ strBytes "example.com" ++ [0])
    (Or.inl rfl) rfl (by rfl) rfl (by decide) (by decide) rfl
  refine ⟨?_, h.2.1⟩
  rw [h.1]
  decide

/-- Claim C5. For any network other than `tcp` and `tcp4`, `Dial` returns
`ErrWrongNetwork` with an empty trace: no upstream dial, no write, no read
and no close is performed. -/
theorem dial_wrong_network (scheme proxyHost : String) (resolver : Resolver)
    (ident : String) (w : World) (network addr : String)
    (h1 : network ≠ "tcp") (h2 : network ≠ "tcp4") :
    dial scheme proxyHost resolver ident w network addr
      = ⟨false, some .wrongNetwork, []⟩ := by
  simp [dial, h1, h2]

/-- Witness for `dial_wrong_network` at network `udp`. -/
theorem dial_wrong_network_witness :
    dial "socks4" "proxy.example.com:1080" fixedResolver defaultIdent grantedWorld
      "udp" "example.com:80" = ⟨false, some .wrongNetwork, []⟩ :=
  dial_wrong_network "socks4" "proxy.example.com:1080" fixedResolver defaultIdent
    grantedWorld "udp" "example.com:80" (by decide) (by decide)

/-- Claim C6. For any target that splits as `host:port` with an
`Atoi`-parseable port: in socks4a mode the request is built with the
sentinel destination address 0.0.0.1 and the NUL-terminated hostname after
the NUL-terminated Ident, independently of the resolver (no local
resolution); in socks4 mode the destination field is the resolver's
address and no trailing hostname field is present. -/
theorem prepareRequest_addressing_modes (resolver resolver2 : Resolver)
    (ident addr host portStr : String) (p : Int) (ip : List Nat)
    (hsplit : splitHostPort addr = .ok (host, portStr))
    (hatoi : atoi portStr = some p) :
    (prepareRequest "socks4a" resolver ident addr =
      .ok ([socksVersion, socksConnect] ++ u16be (toUint16 p) ++ [0, 0, 0, 1] ++
        strBytes ident ++ [0] ++ strBytes host ++ [0]))
    ∧ prepareRequest "socks4a" resolver ident addr
        = prepareRequest "socks4a" resolver2 ident addr
    ∧ (resolver host = .ok ip →
        prepareRequest "socks4" resolver ident addr =
          .ok ([socksVersion, socksConnect] ++ u16be (toUint16 p) ++ ip ++
            strBytes ident ++ [0])) := by
  have hp : parseAddr addr = ⟨host, p, none⟩ := by
    simp [parseAddr, hsplit, hatoi]
  refine ⟨?_, ?_, ?_⟩
  · simp [prepareRequest, hp, isSocks4a]
  · simp [prepareRequest, isSocks4a]
  · intro hres
    simp [prepareRequest, hp, isSocks4a, lookupAddr, hres]

/-- Witness for `prepareRequest_addressing_modes` at `example.com:80` with
a resolver answering 93.184.216.34. -/
theorem prepareRequest_addressing_modes_witness :
    (prepareRequest "socks4a" fixedResolver defaultIdent "example.com:80" =
      .ok ([socksVersion, socksConnect] ++ u16be (toUint16 80) ++ [0, 0, 0, 1] ++
        strBytes defaultIdent ++ [0] ++ strBytes "example.com" ++ [0]))
    ∧ prepareRequest "socks4a" fixedResolver defaultIdent "example.com:80"
        = prepareRequest "socks4a" failResolver defaultIdent "example.com:80"
    ∧ prepareRequest "socks4" fixedResolver defaultIdent "example.com:80" =
        .ok ([socksVersion, socksConnect] ++ u16be (toUint16 80) ++ [93, 184, 216, 34] ++
          strBytes defaultIdent ++ [0]) := by
  have h := prepareRequest_addressing_modes fixedResolver failResolver defaultIdent
    "example.com:80" "example.com" "80" 80 [93, 184, 216, 34] rfl (by decide)
  exact ⟨h.1, h.2.1, h.2.2 rfl⟩

/-- Claim C7. When the single reply read delivers fewer than 8 bytes,
`Dial` returns `ErrIO`: wrapping `io.ErrUnexpectedEOF` when the read ended
without a hard error (clean end-of-stream included), and wrapping the read
error otherwise; in both cases the result is fixed independently of the
reply buffer contents, so no status byte of an incomplete reply is ever
interpreted. -/
theorem dial_short_reply_io_error (scheme proxyHost : String) (resolver : Resolver)
    (ident : String) (w : World) (network addr : String) (req : List Nat)
    (hnet : network = "tcp" ∨ network = "tcp4")
    (hdial : w.dialOk = true)
    (hreq : prepareRequest scheme resolver ident addr = .ok req)
    (hwerr : w.writeErr = false)
    (hwn : minRequestLen ≤ w.writeN)
    (hrn : w.readN < 8) :
    (w.readErr ≠ .failure →
      dial scheme proxyHost resolver ident w network addr =
        ⟨true, some (.ioError .unexpectedEOF),
          [.dialCall network proxyHost, .writeCall req, .readCall, .closeCall]⟩)
    ∧ (w.readErr = .failure →
      dial scheme proxyHost resolver ident w network addr =
        ⟨true, some (.ioError .readFailure),
          [.dialCall network proxyHost, .writeCall req, .readCall, .closeCall]⟩) := by
  constructor
  · intro hre
    exact dial_read_short scheme proxyHost resolver ident w network addr req
      hnet hdial hreq hwerr hwn hre (by omega)
  · intro hre
    exact dial_read_failure scheme proxyHost resolver ident w network addr req
      hnet hdial hreq hwerr hwn hre

/-- Witness for `dial_short_reply_io_error`: a zero-byte read at immediate
end-of-stream yields `ErrIO` wrapping `io.ErrUnexpectedEOF`. -/
theorem dial_short_reply_io_error_witness :
    dial "socks4a" "proxy.example.com:1080" failResolver defaultIdent eofWorld
      "tcp" "example.com:80" =
      ⟨true, some (.ioError .unexpectedEOF),
        [.dialCall "tcp" "proxy.example.com:1080",
         .writeCall ([socksVersion, socksConnect] ++ u16be (toUint16 80) ++ [0, 0, 0, 1] ++
           strBytes defaultIdent ++ [0] ++ strBytes "example.com" ++ [0]),
         .readCall, .closeCall]⟩ := by
  have h := dial_short_reply_io_error "socks4a" "proxy.example.com:1080" failResolver
    defaultIdent eofWorld "tcp" "example.com:80"
    ([socksVersion, socksConnect] ++ u16be (toUint16 80) ++ [0, 0, 0, 1] ++
      strBytes defaultIdent ++ [0] ++ strBytes "example.com" ++ [0])
    (Or.inl rfl) rfl (by rfl) rfl (by decide) (by decide)
  exact h.1 (by decide)

/-- Claim C8. Whenever the upstream dial succeeded, the transport stream is
closed before returning exactly when the overall result is an error, and on
the success path the stream is returned open (non-nil) with no close ever
performed. -/
theorem dial_closes_stream_iff_error (scheme proxyHost : String) (resolver : Resolver)
    (ident : String) (w : World) (network addr : String)
    (hnet : network = "tcp" ∨ network = "tcp4")
    (hdial : w.dialOk = true) :
    ((dial scheme proxyHost resolver ident w network addr).err.isSome ↔
      Event.closeCall ∈ (dial scheme proxyHost resolver ident w network addr).trace)
    ∧ ((dial scheme proxyHost resolver ident w network addr).err = none →
        (dial scheme proxyHost resolver ident w network addr).conn = true
        ∧ Event.closeCall ∉ (dial scheme proxyHost resolver ident w network addr).trace) := by
  cases hp : prepareRequest scheme resolver ident addr with
  | error e =>
    rw [dial_prepare_error scheme proxyHost resolver ident w network addr e hnet hdial hp]
    simp
  | ok req =>
    by_cases hw : w.writeErr = true
    · rw [dial_write_failure scheme proxyHost resolver ident w network addr req
        hnet hdial hp hw]
      simp
    · have hw2 : w.writeErr = false := by simpa using hw
      by_cases hwn : w.writeN < minRequestLen
      · rw [dial_write_short scheme proxyHost resolver ident w network addr req
          hnet hdial hp hw2 hwn]
        simp
      · have hwn2 : minRequestLen ≤ w.writeN := Nat.not_lt.mp hwn
        by_cases hre : w.readErr = .failure
        · rw [dial_read_failure scheme proxyHost resolver ident w network addr req
            hnet hdial hp hw2 hwn2 hre]
          simp
        · by_cases hrn : w.readN = 8
          · rw [dial_run scheme proxyHost resolver ident w network addr req
              hnet hdial hp hw2 hwn2 hre hrn]
            dsimp only
            split_ifs <;> simp
          · rw [dial_read_short scheme proxyHost resolver ident w network addr req
              hnet hdial hp hw2 hwn2 hre hrn]
            simp

/-- Witness for `dial_closes_stream_iff_error` at a rejected handshake. -/
theorem dial_closes_stream_iff_error_witness :
    (((dial "socks4a" "proxy.example.com:1080" failResolver defaultIdent rejectedWorld
        "tcp" "example.com:80").err.isSome ↔
      Event.closeCall ∈ (dial "socks4a" "proxy.example.com:1080" failResolver
        defaultIdent rejectedWorld "tcp" "example.com:80").trace)
    ∧ ((dial "socks4a" "proxy.example.com:1080" failResolver defaultIdent rejectedWorld
        "tcp" "example.com:80").err = none →
        (dial "socks4a" "proxy.example.com:1080" failResolver defaultIdent rejectedWorld
          "tcp" "example.com:80").conn = true
        ∧ Event.closeCall ∉ (dial "socks4a" "proxy.example.com:1080" failResolver
            defaultIdent rejectedWorld "tcp" "example.com:80").trace)) :=
  dial_closes_stream_iff_error "socks4a" "proxy.example.com:1080" failResolver
    defaultIdent rejectedWorld "tcp" "example.com:80" (Or.inl rfl) rfl

/-- Claim C9. Request construction is deterministic: two calls with equal
scheme, resolver outcome, Ident and target address produce byte-identical
request buffers; the embedding takes exactly these inputs, so no hidden
timestamp, randomness or other mutable state can influence the bytes. -/
theorem prepareRequest_deterministic (s1 s2 : String) (r1 r2 : Resolver)
    (i1 i2 a1 a2 : String)
    (hs : s1 = s2) (hr : r1 = r2) (hi : i1 = i2) (ha : a1 = a2) :
    prepareRequest s1 r1 i1 a1 = prepareRequest s2 r2 i2 a2 := by
  rw [hs, hr, hi, ha]

/-- Witness for `prepareRequest_deterministic`. -/
theorem prepareRequest_deterministic_witness :
    prepareRequest "socks4" fixedResolver defaultIdent "example.com:80"
      = prepareRequest "socks4" fixedResolver defaultIdent "example.com:80" :=
  prepareRequest_deterministic "socks4" "socks4" fixedResolver fixedResolver
    defaultIdent defaultIdent "example.com:80" "example.com:80" rfl rfl rfl rfl

/-- Claim C10. A write that reports no error and at least `minRequestLen`
(8) bytes written is accepted even when the count is below the full request
length: `Dial` proceeds to the read and never reports the short-write
`ErrIO`. -/
theorem dial_accepts_truncated_write (scheme proxyHost : String) (resolver : Resolver)
    (ident : String) (w : World) (network addr : String) (req : List Nat)
    (hnet : network = "tcp" ∨ network = "tcp4")
    (hdial : w.dialOk = true)
    (hreq : prepareRequest scheme resolver ident addr = .ok req)
    (hwerr : w.writeErr = false)
    (hwn : minRequestLen ≤ w.writeN) :
    Event.readCall ∈ (dial scheme proxyHost resolver ident w network addr).trace
    ∧ (dial scheme proxyHost resolver ident w network addr).err
        ≠ some (.ioError .shortWrite) := by
  by_cases hre : w.readErr = .failure
  · rw [dial_read_failure scheme proxyHost resolver ident w network addr req
      hnet hdial hreq hwerr hwn hre]
    simp
  · by_cases hrn : w.readN = 8
    · rw [dial_run scheme proxyHost resolver ident w network addr req
        hnet hdial hreq hwerr hwn hre hrn]
      dsimp only
      split_ifs <;> simp
    · rw [dial_read_short scheme proxyHost resolver ident w network addr req
        hnet hdial hreq hwerr hwn hre hrn]
      simp

/-- Witness for `dial_accepts_truncated_write`: a write of exactly 8 bytes,
fewer than the 35-byte request, still reaches the read and does not raise
the short-write error. -/
theorem dial_accepts_truncated_write_witness :
    Event.readCall ∈ (dial "socks4a" "proxy.example.com:1080" failResolver defaultIdent
      shortWriteWorld "tcp" "example.com:80").trace
    ∧ (dial "socks4a" "proxy.example.com:1080" failResolver defaultIdent shortWriteWorld
        "tcp" "example.com:80").err ≠ some (.ioError .shortWrite)
    ∧ shortWriteWorld.writeN <
        ([socksVersion, socksConnect] ++ u16be (toUint16 80) ++ [0, 0, 0, 1] ++
          strBytes defaultIdent ++ [0] ++ strBytes "example.com" ++ [0]).length := by
  have h := dial_accepts_truncated_write "socks4a" "proxy.example.com:1080" failResolver
    defaultIdent shortWriteWorld "tcp" "example.com:80"
    ([socksVersion, socksConnect] ++ u16be (toUint16 80) ++ [0, 0, 0, 1] ++
      strBytes defaultIdent ++ [0] ++ strBytes "example.com" ++ [0])
    (Or.inl rfl) rfl (by rfl) rfl (by decide)
  exact ⟨h.1, h.2, by decide⟩

end Socks4
